import Mathlib

/-!
Verification development for the SafeNest/Tuteliq CLI (`src/index.ts`).

The CLI stores a single API key locally, dispatches each invocation to one
remote operation, and renders the typed JSON response as colored terminal
lines.  The embedding below models:

* chalk color styling as a `ChalkColor` tag attached to rendered text;
* the credential store (`conf`) as an `Option String`;
* JavaScript string truthiness (the empty string is falsy);
* each command action as a pure function from its inputs, the store state
  and an abstract transport to an `ExecResult` trace (stdout lines, stderr
  lines, number of remote calls attempted, file writes, exit code).

JavaScript numbers are modelled as exact rationals; `Number.prototype.toFixed`
is modelled by its ECMA-262 definition (nearest integer, ties toward the
larger integer) over those rationals.
-/

/-- Chalk color/style tags used by the CLI formatters.  `orange` models
`chalk.hex('#FFA500')`; `bgRedWhite` models `chalk.bgRed.white`. -/
inductive ChalkColor where
  | green
  | yellow
  | orange
  | red
  | bgRedWhite
  | white
  deriving Repr, DecidableEq

/-- A piece of terminal text together with the chalk style applied to it. -/
structure Styled where
  color : ChalkColor
  text : String
  deriving Repr, DecidableEq

/-- The severity color table of `formatSeverity` (src/index.ts lines 22-27):
low, medium, high, critical; any other key is absent. -/
def severityColor (s : String) : Option ChalkColor :=
  if s = "low" then some ChalkColor.yellow
  else if s = "medium" then some ChalkColor.orange
  else if s = "high" then some ChalkColor.red
  else if s = "critical" then some ChalkColor.bgRedWhite
  else none

/-- `String.prototype.toUpperCase` over the character sequence (ASCII). -/
def toUpperJS (s : String) : String := String.mk (s.data.map Char.toUpper)

/-- `formatSeverity` (src/index.ts lines 21-29): look up the color, fall back
to `chalk.white`, and upper-case the label. -/
def formatSeverity (severity : String) : Styled :=
  { color := (severityColor severity).getD ChalkColor.white,
    text := toUpperJS severity }

/-- The risk color table of `formatRisk` (src/index.ts lines 32-39):
none and safe are green, then the severity colors. -/
def riskColor (s : String) : Option ChalkColor :=
  if s = "none" then some ChalkColor.green
  else if s = "safe" then some ChalkColor.green
  else if s = "low" then some ChalkColor.yellow
  else if s = "medium" then some ChalkColor.orange
  else if s = "high" then some ChalkColor.red
  else if s = "critical" then some ChalkColor.bgRedWhite
  else none

/-- `formatRisk` (src/index.ts lines 31-41). -/
def formatRisk (risk : String) : Styled :=
  { color := (riskColor risk).getD ChalkColor.white,
    text := toUpperJS risk }

/-- `Number.prototype.toFixed(0)` per ECMA-262, over exact rationals: the
integer closest to `x`; when the two bracketing integers are equally close,
the larger one is chosen. -/
def toFixed0 (x : ℚ) : ℤ :=
  if |((⌊x⌋ + 1 : ℤ) : ℚ) - x| ≤ |x - ((⌊x⌋ : ℤ) : ℚ)| then ⌊x⌋ + 1 else ⌊x⌋

/-- The percentage rendering used for confidence and risk-score fields
(src/index.ts line 105 and analogous lines): `(r * 100).toFixed(0) + '%'`. -/
def percentString (r : ℚ) : String :=
  toString (toFixed0 (r * 100)) ++ "%"

/-- The local credential store (`conf` with key `apiKey`): at most one
stored string. -/
abbrev Store := Option String

/-- `config.set('apiKey', k)`. -/
def configSet (k : String) (_ : Store) : Store := some k

/-- `config.get('apiKey')`. -/
def configGet (s : Store) : Store := s

/-- `config.delete('apiKey')`: removes the key, succeeds even when absent. -/
def configDelete (_ : Store) : Store := none

/-- JavaScript truthiness of the value read from the store: `undefined`
(absent) and the empty string are falsy. -/
def jsTruthy (s : Store) : Bool :=
  match s with
  | none => false
  | some k => !(k = "")

/-- The key masking of the `whoami` action (src/index.ts line 76):
`apiKey.slice(0, 8) + '...' + apiKey.slice(-4)` on the character sequence. -/
def maskData (k : List Char) : List Char :=
  k.take 8 ++ ['.', '.', '.'] ++ k.drop (k.length - 4)

/-- String form of the `whoami` masking. -/
def maskKey (k : String) : String := String.mk (maskData k.data)

/-- The two lines printed by `whoami` when no truthy key is stored
(src/index.ts lines 80-81). -/
def notLoggedInLines : List String :=
  ["Not logged in", "Run: tuteliq login <api-key>"]

/-- The `whoami` action (src/index.ts lines 70-83): reads the key and
reports either the logged-in state with the masked key or the
not-logged-in hint.  The `if (apiKey)` test is JS truthiness. -/
def whoamiLines (store : Store) : List String :=
  match configGet store with
  | some apiKey =>
      if apiKey = "" then notLoggedInLines
      else ["✓ Logged in", "API Key: " ++ maskKey apiKey]
  | none => notLoggedInLines

/-- The `login` action (src/index.ts lines 51-58): store the key and print
the confirmation lines.  `path` is the environment-dependent `config.path`. -/
def loginRun (path : String) (apiKey : String) (store : Store) :
    Store × List String :=
  (configSet apiKey store,
   ["✓ API key saved successfully!",
    "Your key is stored locally at: " ++ path])

/-- The `logout` action (src/index.ts lines 61-67). -/
def logoutRun (store : Store) : Store × List String :=
  (configDelete store, ["✓ Logged out successfully!"])

/-!
JSON values, as produced by `JSON.parse` and consumed by
`JSON.stringify`.  Arrays and objects carry their own list types so that
all recursion below is plain structural mutual recursion.
-/
mutual
inductive JsonVal where
  | null : JsonVal
  | bool (b : Bool) : JsonVal
  | num (q : ℚ) : JsonVal
  | str (s : String) : JsonVal
  | arr (elems : JsonArr) : JsonVal
  | obj (fields : JsonObj) : JsonVal
inductive JsonArr where
  | nil : JsonArr
  | cons (hd : JsonVal) (tl : JsonArr) : JsonArr
inductive JsonObj where
  | nil : JsonObj
  | cons (name : String) (val : JsonVal) (tl : JsonObj) : JsonObj
end

/-- One hexadecimal digit (lower case), for JSON control-character escapes. -/
def hexDigit (n : Nat) : Char :=
  if n < 10 then Char.ofNat (48 + n) else Char.ofNat (87 + n)

/-- The escape of a single character inside a JSON string literal, following
the `QuoteJSONString` routine used by `JSON.stringify`. -/
def escapeJsonChar (c : Char) : String :=
  if c = '"' then "\\\""
  else if c = '\\' then "\\\\"
  else if c = '\x08' then "\\b"
  else if c = '\x0c' then "\\f"
  else if c = '\n' then "\\n"
  else if c = '\r' then "\\r"
  else if c = '\t' then "\\t"
  else if c.toNat < 32 then
    "\\u00" ++ String.mk [hexDigit (c.toNat / 16), hexDigit (c.toNat % 16)]
  else String.singleton c

/-- A JSON string literal with its surrounding quotes. -/
def quoteJson (s : String) : String :=
  "\"" ++ String.join (s.data.map escapeJsonChar) ++ "\""

/-- Rendering of a JSON number.  Integers are rendered exactly; the decimal
formatting of non-integral doubles is approximated by the rational's
`toString`. -/
def jsonNumString (q : ℚ) : String :=
  if q.den = 1 then toString q.num else toString q

/-- Indentation produced by `JSON.stringify(result, null, 2)` at nesting
depth `d`. -/
def indentStr (d : Nat) : String := String.mk (List.replicate (2 * d) ' ')

/-!
`serializeJson` models `JSON.stringify(v, null, 2)` at nesting depth `d`;
`serializeItems` and `serializeFields` render array elements and object
members, one string per entry.
-/
mutual
def serializeJson (d : Nat) : JsonVal → String
  | JsonVal.null => "null"
  | JsonVal.bool b => if b then "true" else "false"
  | JsonVal.num q => jsonNumString q
  | JsonVal.str s => quoteJson s
  | JsonVal.arr JsonArr.nil => "[]"
  | JsonVal.arr (JsonArr.cons h t) =>
      "[\n" ++
        String.intercalate (",\n") (serializeItems (d + 1) (JsonArr.cons h t)) ++
        "\n" ++ indentStr d ++ "]"
  | JsonVal.obj JsonObj.nil => "\x7b\x7d"
  | JsonVal.obj (JsonObj.cons n v t) =>
      "\x7b\n" ++
        String.intercalate (",\n") (serializeFields (d + 1) (JsonObj.cons n v t)) ++
        "\n" ++ indentStr d ++ "\x7d"
def serializeItems (d : Nat) : JsonArr → List String
  | JsonArr.nil => []
  | JsonArr.cons h t => (indentStr d ++ serializeJson d h) :: serializeItems d t
def serializeFields (d : Nat) : JsonObj → List String
  | JsonObj.nil => []
  | JsonObj.cons n v t =>
      (indentStr d ++ quoteJson n ++ ": " ++ serializeJson d v) ::
        serializeFields d t
end

/-- `JSON.stringify(result, null, 2)` as used by `account export`
(src/index.ts line 349). -/
def jsonStringify2 (j : JsonVal) : String := serializeJson 0 j

/-- Observable effects of one CLI process run: stdout lines, stderr lines,
the number of remote operations attempted, file writes (path, contents),
and the exit code. -/
structure ExecResult where
  stdout : List String
  stderr : List String
  netCalls : Nat
  fileWrites : List (String × String)
  exitCode : Nat
  deriving Repr, DecidableEq

/-- Result of `getClient` (src/index.ts lines 12-19): either a client
holding the key, or the authentication failure exit. -/
inductive GetClient where
  | ok (key : String) : GetClient
  | authExit : GetClient
  deriving Repr, DecidableEq

/-- The authentication error line printed by `getClient` before
`process.exit(1)`. -/
def authErrLine : String := "Not logged in. Run: tuteliq login <api-key>"

/-- `getClient` (src/index.ts lines 12-19): read the stored key; a falsy
value (absent or empty) triggers the error exit. -/
def getClient (store : Store) : GetClient :=
  match configGet store with
  | some k => if k = "" then GetClient.authExit else GetClient.ok k
  | none => GetClient.authExit

/-- One authenticated CLI command, as the data that varies between the
identical try/catch action bodies in src/index.ts: the remote operation
name, the local pre-network argument processing (which can throw, e.g.
`JSON.parse`), and the rendering of the typed result into stdout lines and
file writes. -/
structure AuthedCmd (α β ρ : Type) where
  op : String
  pre : α → Except String β
  render : α → ρ → List String × List (String × String)

/-- The shared action skeleton of every authenticated command
(e.g. src/index.ts lines 90-120): `getClient`, then local argument
processing, then exactly one remote call through `call`, then rendering;
any thrown error is printed to stderr with exit code 1.  `call` receives
the API key, the operation name and the request. -/
def runAuthed {α β ρ : Type} (c : AuthedCmd α β ρ) (store : Store)
    (call : String → String → β → Except String ρ) (a : α) : ExecResult :=
  match getClient store with
  | GetClient.authExit =>
      { stdout := [], stderr := [authErrLine], netCalls := 0,
        fileWrites := [], exitCode := 1 }
  | GetClient.ok key =>
      match c.pre a with
      | Except.error msg =>
          { stdout := [], stderr := ["Error: " ++ msg], netCalls := 0,
            fileWrites := [], exitCode := 1 }
      | Except.ok req =>
          match call key c.op req with
          | Except.error msg =>
              { stdout := [], stderr := ["Error: " ++ msg], netCalls := 1,
                fileWrites := [], exitCode := 1 }
          | Except.ok result =>
              let rendered := c.render a result
              { stdout := rendered.1, stderr := [], netCalls := 1,
                fileWrites := rendered.2, exitCode := 0 }

/-- Typed response of `detectBullying` (fields read by the action at
src/index.ts lines 98-114).  `bullying_type` is `none` when the field is
absent (the action reads it with `?.`). -/
structure BullyingResult where
  is_bullying : Bool
  severity : String
  confidence : ℚ
  risk_score : ℚ
  bullying_type : Option (List String)
  rationale : String
  recommended_action : String
  deriving Repr, DecidableEq

/-- Rendering of the `detect-bullying` action (src/index.ts lines 97-114).
Each list entry is one `console.log` line; styled parts appear as their
text, with the styles covered by the formatter lemmas. -/
def renderBullying (r : BullyingResult) : List String :=
  [""]
  ++ [if r.is_bullying then "⚠ BULLYING DETECTED" else "✓ No bullying detected"]
  ++ [""]
  ++ ["Severity:    " ++ (formatSeverity r.severity).text]
  ++ ["Confidence:  " ++ percentString r.confidence]
  ++ ["Risk Score:  " ++ percentString r.risk_score]
  ++ (match r.bullying_type with
      | some ts => if 0 < ts.length
          then ["Types:       " ++ String.intercalate (", ") ts] else []
      | none => [])
  ++ [""] ++ ["Rationale:"] ++ [r.rationale] ++ [""]
  ++ ["Action: " ++ r.recommended_action]

/-- The `detect-bullying` command (src/index.ts lines 86-120): request is
the raw text (`{ content: text }`), no local pre-processing. -/
def detectBullyingCmd : AuthedCmd String String BullyingResult :=
  { op := "detectBullying",
    pre := fun text => Except.ok text,
    render := fun _ r => (renderBullying r, []) }

/-- Typed response of `detectGrooming` (fields read by the action at
src/index.ts lines 141-159). -/
structure GroomingResult where
  grooming_risk : String
  confidence : ℚ
  risk_score : ℚ
  flags : Option (List String)
  rationale : String
  recommended_action : String
  deriving Repr, DecidableEq

/-- The banner choice of `detect-grooming` (src/index.ts lines 141-145):
the comparison is literally `result.grooming_risk !== 'none'`. -/
def groomingBannerLine (risk : String) : String :=
  if risk ≠ "none" then "⚠ GROOMING RISK DETECTED" else "✓ No grooming detected"

/-- Rendering of the `detect-grooming` action (src/index.ts lines 140-159). -/
def renderGrooming (r : GroomingResult) : List String :=
  [""]
  ++ [groomingBannerLine r.grooming_risk]
  ++ [""]
  ++ ["Risk Level:  " ++ (formatRisk r.grooming_risk).text]
  ++ ["Confidence:  " ++ percentString r.confidence]
  ++ ["Risk Score:  " ++ percentString r.risk_score]
  ++ (match r.flags with
      | some fs => if 0 < fs.length
          then [""] ++ ["Warning Flags:"] ++ fs.map (fun f => "  • " ++ f)
          else []
      | none => [])
  ++ [""] ++ ["Rationale:"] ++ [r.rationale] ++ [""]
  ++ ["Action: " ++ r.recommended_action]

/-- The options of `detect-grooming`: the required `-m, --messages` JSON
string and the optional `-a, --age` string. -/
structure GroomOpts where
  messages : String
  age : Option String
  deriving Repr, DecidableEq

/-- Approximation of JavaScript `parseInt` on an option value that passed
the truthiness test. -/
def parseIntJS (s : String) : Option Int := (s.trim).toInt?

/-- The `detect-grooming` command (src/index.ts lines 123-165),
parameterized by the runtime's `JSON.parse` (`parse`; `none` models a
thrown `SyntaxError`).  `getClient` runs first (line 132), then
`JSON.parse(options.messages)` (line 133), then the single remote call. -/
def detectGroomingCmd (parse : String → Option JsonVal) :
    AuthedCmd GroomOpts (JsonVal × Option Int) GroomingResult :=
  { op := "detectGrooming",
    pre := fun o =>
      match parse o.messages with
      | none => Except.error ("Unexpected token: not valid JSON")
      | some j =>
          Except.ok (j, match o.age with
            | some a => if a = "" then none else parseIntJS a
            | none => none),
    render := fun _ r => (renderGrooming r, []) }

/-- Typed response of `detectUnsafe` (fields read by the action at
src/index.ts lines 180-196).  `is_unsafe` models the response field named
after the detection flag (`result.unsafe` in the source). -/
structure UnsafeResult where
  is_unsafe : Bool
  severity : String
  confidence : ℚ
  risk_score : ℚ
  categories : Option (List String)
  rationale : String
  recommended_action : String
  deriving Repr, DecidableEq

/-- Rendering of the `detect-unsafe` action (src/index.ts lines 179-196). -/
def renderUnsafe (r : UnsafeResult) : List String :=
  [""]
  ++ [if r.is_unsafe then "⚠ UNSAFE CONTENT DETECTED" else "✓ Content is safe"]
  ++ [""]
  ++ ["Severity:    " ++ (formatSeverity r.severity).text]
  ++ ["Confidence:  " ++ percentString r.confidence]
  ++ ["Risk Score:  " ++ percentString r.risk_score]
  ++ (match r.categories with
      | some cs => if 0 < cs.length
          then ["Categories:  " ++ String.intercalate (", ") cs] else []
      | none => [])
  ++ [""] ++ ["Rationale:"] ++ [r.rationale] ++ [""]
  ++ ["Action: " ++ r.recommended_action]

/-- The `detect-unsafe` command (src/index.ts lines 168-202). -/
def detectUnsafeCmd : AuthedCmd String String UnsafeResult :=
  { op := "detectUnsafe",
    pre := fun text => Except.ok text,
    render := fun _ r => (renderUnsafe r, []) }

/-- Typed `breach` record (fields read by `breach get` at src/index.ts
lines 556-573). -/
structure Breach where
  id : String
  title : String
  severity : String
  status : String
  notification_status : String
  reported_by : String
  notification_deadline : String
  created_at : String
  updated_at : String
  description : String
  affected_user_ids : List String
  data_categories : List String
  deriving Repr, DecidableEq

/-- Rendering of the `breach get` action (src/index.ts lines 556-573).
The `Affected Users` and `Data Categories` lines are printed
unconditionally. -/
def renderBreachGet (b : Breach) : List String :=
  [""] ++ [b.title] ++ [""]
  ++ ["ID:            " ++ b.id]
  ++ ["Severity:      " ++ (formatSeverity b.severity).text]
  ++ ["Status:        " ++ b.status]
  ++ ["Notification:  " ++ b.notification_status]
  ++ ["Reported By:   " ++ b.reported_by]
  ++ ["Deadline:      " ++ b.notification_deadline]
  ++ ["Created:       " ++ b.created_at]
  ++ ["Updated:       " ++ b.updated_at]
  ++ [""] ++ ["Description:"] ++ [b.description] ++ [""]
  ++ ["Affected Users:   " ++ String.intercalate (", ") b.affected_user_ids]
  ++ ["Data Categories:  " ++ String.intercalate (", ") b.data_categories]

/-- The `breach get <id>` command (src/index.ts lines 546-579). -/
def breachGetCmd : AuthedCmd String String Breach :=
  { op := "getBreach",
    pre := fun id => Except.ok id,
    render := fun _ b => (renderBreachGet b, []) }

/-- The `account export` command (src/index.ts lines 338-363): no request
payload; the result is serialized with `JSON.stringify(result, null, 2)`
and, when `-o` carries a truthy path, written to that file with a single
confirmation line on the terminal; otherwise the JSON itself is printed. -/
def accountExportCmd : AuthedCmd (Option String) Unit JsonVal :=
  { op := "exportAccountData",
    pre := fun _ => Except.ok (),
    render := fun output result =>
      let json := jsonStringify2 result
      match output with
      | some file =>
          if file = "" then ([json], [])
          else (["✓ Data exported to " ++ file], [(file, json)])
      | none => ([json], []) }

/-- The remote-call part of `account delete` (src/index.ts lines 322-335):
result is the `deleted_count` field. -/
def accountDeleteCmd : AuthedCmd Unit Unit Nat :=
  { op := "deleteAccountData",
    pre := fun _ => Except.ok (),
    render := fun _ n =>
      ([""] ++ ["✓ Account data deleted"]
        ++ ["Deleted records: " ++ toString n], []) }

/-- The full `account delete` action (src/index.ts lines 311-336):
without `--confirm` it prints the warning and exits with status 0 before
`getClient` ever runs; with `--confirm` it follows the shared
authenticated skeleton. -/
def runAccountDelete (confirm : Bool) (store : Store)
    (call : String → String → Unit → Except String Nat) : ExecResult :=
  if !confirm then
    { stdout := ["⚠ WARNING: This will permanently delete ALL your account data.",
                 "Run with --confirm to proceed."],
      stderr := [], netCalls := 0, fileWrites := [], exitCode := 0 }
  else runAuthed accountDeleteCmd store call ()

/-- ECMA's nearest-integer-ties-larger rule coincides with rounding half
up: `toFixed0 x = ⌊x + 1/2⌋`. -/
theorem toFixed0_eq_floor_add_half (x : ℚ) : toFixed0 x = ⌊x + 1 / 2⌋ := by
  unfold toFixed0
  have hlo : ((⌊x⌋ : ℤ) : ℚ) ≤ x := Int.floor_le x
  have hhi : x < ((⌊x⌋ : ℤ) : ℚ) + 1 := Int.lt_floor_add_one x
  rw [abs_of_nonneg (by push_cast; linarith), abs_of_nonneg (by linarith)]
  split
  · next h =>
      symm
      rw [Int.floor_eq_iff]
      push_cast at h ⊢
      constructor <;> linarith
  · next h =>
      symm
      rw [Int.floor_eq_iff]
      push_cast at h ⊢
      constructor <;> linarith

/-- Claim C2: for every confidence or risk value `r` in the unit interval,
the rendered percentage is `round(r * 100)` with ties rounded half up, as
a whole-percent string. -/
theorem percent_render_round_half_up (r : ℚ) (_h0 : 0 ≤ r) (_h1 : r ≤ 1) :
    percentString r = toString ⌊r * 100 + 1 / 2⌋ ++ "%" := by
  unfold percentString
  rw [toFixed0_eq_floor_add_half]

/-- Claim C2 witness: at the tie `r = 1/200` (so `r * 100 = 0.5`), the
rendering rounds half up to `1%`. -/
theorem percent_render_round_half_up_witness :
    (0 ≤ (1 / 200 : ℚ) ∧ (1 / 200 : ℚ) ≤ 1 ∧
      percentString (1 / 200) = toString ⌊(1 / 200 : ℚ) * 100 + 1 / 2⌋ ++ "%") ∧
    percentString (1 / 200) = "1%" :=
  ⟨⟨by norm_num, by norm_num,
    percent_render_round_half_up (1 / 200) (by norm_num) (by norm_num)⟩,
   by
    have h := percent_render_round_half_up (1 / 200) (by norm_num) (by norm_num)
    rw [h]
    have hfl : ⌊(1 / 200 : ℚ) * 100 + 1 / 2⌋ = 1 := by
      apply Int.floor_eq_iff.mpr
      norm_num
    rw [hfl]
    rfl⟩

/-- Claim C3: `formatSeverity` maps each of low, medium, high, critical to
its fixed color with the upper-cased label and falls back to plain white
for every other string; `formatRisk` does the same over none, safe, low,
medium, high, critical. -/
theorem severity_risk_formatters :
    (formatSeverity ("low") = ⟨ChalkColor.yellow, "LOW"⟩ ∧
     formatSeverity ("medium") = ⟨ChalkColor.orange, "MEDIUM"⟩ ∧
     formatSeverity ("high") = ⟨ChalkColor.red, "HIGH"⟩ ∧
     formatSeverity ("critical") = ⟨ChalkColor.bgRedWhite, "CRITICAL"⟩) ∧
    (∀ s : String, s ∉ (["low", "medium", "high", "critical"] : List String) →
      formatSeverity s = ⟨ChalkColor.white, toUpperJS s⟩) ∧
    (formatRisk ("none") = ⟨ChalkColor.green, "NONE"⟩ ∧
     formatRisk ("safe") = ⟨ChalkColor.green, "SAFE"⟩ ∧
     formatRisk ("low") = ⟨ChalkColor.yellow, "LOW"⟩ ∧
     formatRisk ("medium") = ⟨ChalkColor.orange, "MEDIUM"⟩ ∧
     formatRisk ("high") = ⟨ChalkColor.red, "HIGH"⟩ ∧
     formatRisk ("critical") = ⟨ChalkColor.bgRedWhite, "CRITICAL"⟩) ∧
    (∀ s : String,
      s ∉ (["none", "safe", "low", "medium", "high", "critical"] : List String) →
      formatRisk s = ⟨ChalkColor.white, toUpperJS s⟩) := by
  refine ⟨⟨by decide, by decide, by decide, by decide⟩, ?_,
    ⟨by decide, by decide, by decide, by decide, by decide, by decide⟩, ?_⟩
  · intro s hs
    simp only [List.mem_cons, List.not_mem_nil, or_false, not_or] at hs
    obtain ⟨h1, h2, h3, h4⟩ := hs
    simp [formatSeverity, severityColor, h1, h2, h3, h4]
  · intro s hs
    simp only [List.mem_cons, List.not_mem_nil, or_false, not_or] at hs
    obtain ⟨h1, h2, h3, h4, h5, h6⟩ := hs
    simp [formatRisk, riskColor, h1, h2, h3, h4, h5, h6]

/-- Claim C3 witness: an unrecognized value gets the neutral white style in
both formatters. -/
theorem severity_risk_formatters_witness :
    formatSeverity ("banana") = ⟨ChalkColor.white, "BANANA"⟩ ∧
    formatRisk ("banana") = ⟨ChalkColor.white, "BANANA"⟩ :=
  ⟨severity_risk_formatters.2.1 ("banana") (by decide),
   severity_risk_formatters.2.2.2 ("banana") (by decide)⟩

/-- Claim C1 (amended): with no stored API key, every authenticated command
invocation that reaches the authentication check — any command built on the
shared skeleton, and `account delete` when `--confirm` is given — prints
the authentication error on stderr and exits with status 1 while attempting
zero remote operations, independently of the transport. -/
theorem auth_fail_fast {α β ρ : Type} (c : AuthedCmd α β ρ)
    (call : String → String → β → Except String ρ) (a : α) (store : Store)
    (h : store = none) :
    runAuthed c store call a =
      { stdout := [], stderr := [authErrLine], netCalls := 0,
        fileWrites := [], exitCode := 1 } ∧
    (∀ dcall : String → String → Unit → Except String Nat,
      runAccountDelete true store dcall =
        { stdout := [], stderr := [authErrLine], netCalls := 0,
          fileWrites := [], exitCode := 1 }) := by
  subst h
  exact ⟨rfl, fun _ => rfl⟩

/-- Claim C1 witness: `detect-bullying` with no stored key, against a
transport stub, fails fast with the authentication error. -/
theorem auth_fail_fast_witness :
    runAuthed detectBullyingCmd none
        (fun _ _ _ => Except.error ("stub transport invoked")) ("hello") =
      { stdout := [], stderr := [authErrLine], netCalls := 0,
        fileWrites := [], exitCode := 1 } :=
  (auth_fail_fast detectBullyingCmd
    (fun _ _ _ => Except.error ("stub transport invoked")) ("hello") none rfl).1

/-- Claim C1 counterexample: `account delete` is an authenticated command,
yet invoked without `--confirm` and with no stored key it exits with
status 0 and an empty stderr — no authentication error and exit status not
equal to 1 — because the confirmation gate runs before `getClient`. -/
theorem account_delete_unconfirmed_exits_zero :
    (runAccountDelete false none
        (fun _ _ _ => Except.error ("stub transport invoked"))).exitCode = 0 ∧
    (runAccountDelete false none
        (fun _ _ _ => Except.error ("stub transport invoked"))).stderr = [] ∧
    (runAccountDelete false none
        (fun _ _ _ => Except.error ("stub transport invoked"))).netCalls = 0 :=
  ⟨rfl, rfl, rfl⟩

/-- Claim C4: whenever `JSON.parse` fails on the `-m, --messages` argument,
`detect-grooming` exits with status 1 having attempted zero remote
operations, and the outcome does not depend on the transport. -/
theorem grooming_bad_json_no_network
    (parse : String → Option JsonVal) (store : Store)
    (call call2 : String → String → (JsonVal × Option Int) → Except String GroomingResult)
    (o : GroomOpts) (h : parse o.messages = none) :
    (runAuthed (detectGroomingCmd parse) store call o).exitCode = 1 ∧
    (runAuthed (detectGroomingCmd parse) store call o).netCalls = 0 ∧
    runAuthed (detectGroomingCmd parse) store call o =
      runAuthed (detectGroomingCmd parse) store call2 o := by
  cases store with
  | none => exact ⟨rfl, rfl, rfl⟩
  | some k =>
    by_cases hk : k = ""
    · subst hk; exact ⟨rfl, rfl, rfl⟩
    · have hcl : getClient (some k) = GetClient.ok k := by
        simp [getClient, configGet, hk]
      refine ⟨?_, ?_, ?_⟩ <;>
        simp [runAuthed, hcl, detectGroomingCmd, h]

/-- Claim C4 witness: a concrete non-JSON `-m` value on a logged-in store
exits 1 with no remote call. -/
theorem grooming_bad_json_no_network_witness :
    (runAuthed (detectGroomingCmd (fun _ => none)) (some ("secret-key"))
        (fun _ _ _ => Except.error ("stub transport invoked"))
        ⟨"not json", none⟩).exitCode = 1 ∧
    (runAuthed (detectGroomingCmd (fun _ => none)) (some ("secret-key"))
        (fun _ _ _ => Except.error ("stub transport invoked"))
        ⟨"not json", none⟩).netCalls = 0 := by
  have h := grooming_bad_json_no_network (fun _ => none) (some ("secret-key"))
    (fun _ _ _ => Except.error ("stub transport invoked"))
    (fun _ _ _ => Except.error ("stub transport invoked"))
    ⟨"not json", none⟩ rfl
  exact ⟨h.1, h.2.1⟩

/-- Claim C5 counterexample: `login ""` stores the empty string, which the
`whoami` truthiness test treats as absent, so `whoami` after `login ""`
reports the logged-out state instead of a logged-in state with a masked
key. -/
theorem whoami_after_login_empty_key :
    whoamiLines (loginRun ("cfg-path") ("") none).1 =
      ["Not logged in", "Run: tuteliq login <api-key>"] := rfl

/-- Claim C5 (amended): after `login k` with any non-empty key `k`,
`whoami` reports the logged-in state and prints the key masked to its
first 8 characters, an ellipsis, and its last 4 characters. -/
theorem login_whoami_masked (path k : String) (store : Store) (hk : k ≠ "") :
    whoamiLines (loginRun path k store).1 =
      ["✓ Logged in", "API Key: " ++ maskKey k] := by
  simp [whoamiLines, loginRun, configSet, configGet, hk]

/-- Claim C5 witness: `login "abc123"` then `whoami` shows the masked key
`abc123...c123`. -/
theorem login_whoami_masked_witness :
    whoamiLines (loginRun ("cfg-path") ("abc123") none).1 =
      ["✓ Logged in", "API Key: abc123...c123"] := by
  have h := login_whoami_masked ("cfg-path") ("abc123") none (by decide)
  rw [h]
  decide

/-- Claim C6: `logout` after `login k` leaves the store empty so that a
subsequent `whoami` reports the logged-out state, and the store's delete
operation is idempotent: it succeeds with the same absent result whether
or not a key was present. -/
theorem logout_removes_delete_idempotent :
    (∀ (path k : String) (store : Store),
      whoamiLines (logoutRun (loginRun path k store).1).1 =
        ["Not logged in", "Run: tuteliq login <api-key>"]) ∧
    (∀ store : Store,
      configDelete (configDelete store) = configDelete store ∧
      configDelete store = none) :=
  ⟨fun _ _ _ => rfl, fun _ => ⟨rfl, rfl⟩⟩

/-- Claim C7: when the remote call succeeds, `account export -o <file>`
writes exactly the 2-space pretty serialization of the response value to
the file and prints nothing but the confirmation line (empty stderr);
without `-o` the serialized JSON itself is the only stdout output and no
file is written.  Either way exactly one remote operation runs and the
exit status is 0. -/
theorem export_writes_json (k f : String) (result : JsonVal)
    (call : String → String → Unit → Except String JsonVal)
    (hk : k ≠ "") (hf : f ≠ "")
    (hcall : call k ("exportAccountData") () = Except.ok result) :
    runAuthed accountExportCmd (some k) call (some f) =
      { stdout := ["✓ Data exported to " ++ f], stderr := [], netCalls := 1,
        fileWrites := [(f, jsonStringify2 result)], exitCode := 0 } ∧
    runAuthed accountExportCmd (some k) call none =
      { stdout := [jsonStringify2 result], stderr := [], netCalls := 1,
        fileWrites := [], exitCode := 0 } := by
  have hcl : getClient (some k) = GetClient.ok k := by
    simp [getClient, configGet, hk]
  constructor <;> simp [runAuthed, hcl, accountExportCmd, hcall, hf]

/-- A concrete export response used by the C7 witness. -/
def sampleExportJson : JsonVal :=
  JsonVal.obj (JsonObj.cons ("ok") (JsonVal.bool true) JsonObj.nil)

/-- A transport returning `sampleExportJson` for any operation. -/
def sampleExportCall : String → String → Unit → Except String JsonVal :=
  fun _ _ _ => Except.ok sampleExportJson

/-- Claim C7 witness: a concrete export writes the pretty-printed response
to `out.json` and prints only the confirmation line. -/
theorem export_writes_json_witness :
    runAuthed accountExportCmd (some ("key-1")) sampleExportCall (some ("out.json")) =
      { stdout := ["✓ Data exported to out.json"], stderr := [], netCalls := 1,
        fileWrites := [("out.json", "\x7b\n  \"ok\": true\n\x7d")],
        exitCode := 0 } := by
  have h := (export_writes_json ("key-1") ("out.json") sampleExportJson
    sampleExportCall (by decide) (by decide) rfl).1
  rw [h]
  decide

/-- A breach whose list fields are both empty, exhibiting the unconditional
`breach get` list lines. -/
def breachEmptyLists : Breach :=
  { id := "b-1", title := "Leak", severity := "low", status := "detected",
    notification_status := "pending", reported_by := "alice",
    notification_deadline := "2026-01-01", created_at := "2025-12-01",
    updated_at := "2025-12-02", description := "d",
    affected_user_ids := [], data_categories := [] }

/-- Claim C8 counterexample: for a breach whose `affected_user_ids` and
`data_categories` are empty, `breach get` still renders both field lines
(with an empty value after the label) instead of omitting them. -/
theorem breach_get_renders_empty_list_line :
    ("Affected Users:   ") ∈ renderBreachGet breachEmptyLists ∧
    ("Data Categories:  ") ∈ renderBreachGet breachEmptyLists := by
  constructor <;> decide

/-- Claim C8 (amended): the list fields of the detection commands
(bullying types, unsafe categories, grooming flags) are joined with ", "
(flags as bullet lines) when non-empty and omitted entirely — adding no
line — when empty or absent; but `breach get` renders its
`Affected Users` and `Data Categories` lines unconditionally, even for
empty lists. -/
theorem list_fields_joined_or_omitted :
    (∀ (r : BullyingResult) (ts : List String),
      r.bullying_type = some ts → ts ≠ [] →
      ("Types:       " ++ String.intercalate (", ") ts) ∈ renderBullying r) ∧
    (∀ r : BullyingResult, r.bullying_type.getD [] = [] →
      renderBullying r = renderBullying { r with bullying_type := none } ∧
      (renderBullying r).length = 11) ∧
    (∀ (r : UnsafeResult) (cs : List String),
      r.categories = some cs → cs ≠ [] →
      ("Categories:  " ++ String.intercalate (", ") cs) ∈ renderUnsafe r) ∧
    (∀ r : UnsafeResult, r.categories.getD [] = [] →
      renderUnsafe r = renderUnsafe { r with categories := none } ∧
      (renderUnsafe r).length = 11) ∧
    (∀ (r : GroomingResult) (fs : List String) (f : String),
      r.flags = some fs → f ∈ fs →
      ("  • " ++ f) ∈ renderGrooming r) ∧
    (∀ r : GroomingResult, r.flags.getD [] = [] →
      renderGrooming r = renderGrooming { r with flags := none } ∧
      (renderGrooming r).length = 11) ∧
    (∀ b : Breach,
      ("Affected Users:   " ++ String.intercalate (", ") b.affected_user_ids)
        ∈ renderBreachGet b ∧
      ("Data Categories:  " ++ String.intercalate (", ") b.data_categories)
        ∈ renderBreachGet b) := by
  refine ⟨?_, ?_, ?_, ?_, ?_, ?_, ?_⟩
  · intro r ts hty hne
    have hlen : 0 < ts.length := List.length_pos.mpr hne
    simp [renderBullying, hty, hlen]
  · intro r h
    cases hty : r.bullying_type with
    | none => constructor <;> simp [renderBullying, hty]
    | some ts =>
        rw [hty] at h
        simp only [Option.getD_some] at h
        subst h
        constructor <;> simp [renderBullying, hty]
  · intro r cs hcs hne
    have hlen : 0 < cs.length := List.length_pos.mpr hne
    simp [renderUnsafe, hcs, hlen]
  · intro r h
    cases hcs : r.categories with
    | none => constructor <;> simp [renderUnsafe, hcs]
    | some cs =>
        rw [hcs] at h
        simp only [Option.getD_some] at h
        subst h
        constructor <;> simp [renderUnsafe, hcs]
  · intro r fs f hfl hf
    have hlen : 0 < fs.length := List.length_pos.mpr (List.ne_nil_of_mem hf)
    simp [renderGrooming, hfl, hlen]
    exact Or.inr (Or.inr (Or.inr (Or.inr (Or.inr (Or.inr (Or.inr (Or.inr
      (Or.inl ⟨f, hf, rfl⟩))))))))
  · intro r h
    cases hfl : r.flags with
    | none => constructor <;> simp [renderGrooming, hfl]
    | some fs =>
        rw [hfl] at h
        simp only [Option.getD_some] at h
        subst h
        constructor <;> simp [renderGrooming, hfl]
  · intro b
    constructor <;> simp [renderBreachGet]

/-- A bullying result with a non-empty types list, for the C8 witness. -/
def bullyingSample : BullyingResult :=
  { is_bullying := true, severity := "high", confidence := 92 / 100,
    risk_score := 85 / 100, bullying_type := some ["verbal", "exclusion"],
    rationale := "r", recommended_action := "flag_for_moderator" }

/-- Claim C8 witness: a non-empty types list is rendered joined with ", ",
and an empty list adds no line to the bullying rendering. -/
theorem list_fields_joined_or_omitted_witness :
    ("Types:       verbal, exclusion") ∈ renderBullying bullyingSample ∧
    (renderBullying { bullyingSample with bullying_type := some [] }).length = 11 := by
  constructor
  · have h := list_fields_joined_or_omitted.1 bullyingSample
      ["verbal", "exclusion"] rfl (by decide)
    have he : "Types:       " ++ String.intercalate (", ") ["verbal", "exclusion"] =
        "Types:       verbal, exclusion" := by decide
    rw [he] at h
    exact h
  · exact (list_fields_joined_or_omitted.2.1
      { bullyingSample with bullying_type := some [] } rfl).2

/-- Claim C9: the `whoami` mask hides nothing for keys of at most 12
characters — the whole key occurs inside the masked string (as a
subsequence, with multiplicity) — and only for longer keys are characters
concealed: the mask displays exactly 8 + 4 key characters, fewer than the
key length. -/
theorem mask_shows_short_keys (k : String) :
    (k.length ≤ 12 → k.data.Sublist (maskKey k).data) ∧
    (12 < k.length →
      (k.data.take 8).length + (k.data.drop (k.data.length - 4)).length
        < k.length) := by
  constructor
  · intro h
    show k.data.Sublist (maskData k.data)
    unfold maskData
    have hlen : k.length = k.data.length := rfl
    have h1 : (k.data.drop 8).Sublist (k.data.drop (k.data.length - 4)) := by
      have he : (k.data.drop (k.data.length - 4)).drop (8 - (k.data.length - 4)) =
          k.data.drop 8 := by
        rw [List.drop_drop]
        congr 1
        omega
      rw [← he]
      exact List.drop_sublist _ _
    have h2 : (k.data.drop 8).Sublist
        (['.', '.', '.'] ++ k.data.drop (k.data.length - 4)) := by
      have := (List.nil_sublist (['.', '.', '.'] : List Char)).append h1
      simpa using this
    have h3 := (List.Sublist.refl (k.data.take 8)).append h2
    rw [List.take_append_drop] at h3
    simpa [List.append_assoc] using h3
  · intro h
    have hlen : k.length = k.data.length := rfl
    rw [List.length_take, List.length_drop]
    omega

/-- Claim C9 witness: a 12-character key occurs whole inside its mask; for
a 13-character key the mask shows only 12 of the 13 characters. -/
theorem mask_shows_short_keys_witness :
    ("abcdefghijkl").data.Sublist (maskKey ("abcdefghijkl")).data ∧
    ((("abcdefghijklm").data.take 8).length +
      (("abcdefghijklm").data.drop (("abcdefghijklm").data.length - 4)).length
        < ("abcdefghijklm").length) :=
  ⟨(mask_shows_short_keys ("abcdefghijkl")).1 (by decide),
   (mask_shows_short_keys ("abcdefghijklm")).2 (by decide)⟩

/-- Claim C10: the `detect-grooming` banner compares `grooming_risk`
against the literal string `none` only: every other value — including
`safe`, which `formatRisk` styles green — selects the positive
"GROOMING RISK DETECTED" banner, and the negative banner appears exactly
when the risk is `none`; the chosen banner is always part of the rendered
output. -/
theorem grooming_banner_literal_none :
    (∀ risk : String, risk ≠ "none" →
      groomingBannerLine risk = "⚠ GROOMING RISK DETECTED") ∧
    (∀ risk : String,
      groomingBannerLine risk = "✓ No grooming detected" ↔ risk = "none") ∧
    groomingBannerLine ("safe") = "⚠ GROOMING RISK DETECTED" ∧
    formatRisk ("safe") = ⟨ChalkColor.green, "SAFE"⟩ ∧
    (∀ r : GroomingResult,
      groomingBannerLine r.grooming_risk ∈ renderGrooming r) := by
  refine ⟨?_, ?_, by decide, by decide, ?_⟩
  · intro risk h
    simp [groomingBannerLine, h]
  · intro risk
    constructor
    · intro h
      by_contra hne
      rw [groomingBannerLine, if_pos hne] at h
      exact absurd h (by decide)
    · intro h
      simp [groomingBannerLine, h]
  · intro r
    simp [renderGrooming]

/-- Claim C10 witness: `safe` triggers the positive banner, `none` the
negative one. -/
theorem grooming_banner_literal_none_witness :
    groomingBannerLine ("safe") = "⚠ GROOMING RISK DETECTED" ∧
    groomingBannerLine ("none") = "✓ No grooming detected" :=
  ⟨grooming_banner_literal_none.1 ("safe") (by decide),
   (grooming_banner_literal_none.2.1 ("none")).mpr rfl⟩
